import Mathlib

/-- JS number in the model: an exact rational, or `none` for NaN.
(Doubles are modelled as exact rationals; infinities, rounding and
exponent/hex numeric string forms are outside the model.) -/
abbrev JSNum := Option ℚ

/-- Untyped JS runtime value as stored in a `LayerProperties` mapping. -/
inductive JSVal where
  | vUndefined : JSVal
  | vNull : JSVal
  | vBool : Bool → JSVal
  | vNum : JSNum → JSVal
  | vStr : String → JSVal
deriving DecidableEq

open JSVal

/-- JS truthiness (ToBoolean): undefined, null, false, 0, NaN and "" are falsy. -/
def truthy : JSVal → Bool
  | vUndefined => false
  | vNull => false
  | vBool b => b
  | vNum none => false
  | vNum (some q) => decide (q ≠ 0)
  | vStr s => decide (s ≠ "")

/-- JS typeof v === "string" test. -/
def isString : JSVal → Bool
  | vStr _ => true
  | _ => false

/-- JS typeof v === "number" test (NaN is a number). -/
def isNumber : JSVal → Bool
  | vNum _ => true
  | _ => false

/-- Whitespace stripped by JS ToNumber before parsing. -/
def isJsSpace (c : Char) : Bool := c = ' ' || c = '\t' || c = '\n' || c = '\r'

/-- Trim JS whitespace from both ends of a character list. -/
def jsTrim (l : List Char) : List Char :=
  ((l.dropWhile isJsSpace).reverse.dropWhile isJsSpace).reverse

/-- Value of a decimal digit character. -/
def digitVal (c : Char) : Option Nat :=
  if c.isDigit then some (c.toNat - 48) else none

/-- Read a (possibly empty) run of decimal digits; fails on a non-digit. -/
def decDigits : List Char → Nat → Option Nat
  | [], acc => some acc
  | c :: cs, acc =>
    match digitVal c with
    | some d => decDigits cs (acc * 10 + d)
    | none => none

/-- Parse an unsigned decimal numeral, with an optional fractional part. -/
def parseUnsigned (l : List Char) : Option ℚ :=
  let intPart := l.takeWhile (fun c => c ≠ '.')
  match l.dropWhile (fun c => c ≠ '.') with
  | [] =>
    if intPart.isEmpty then none
    else (decDigits intPart 0).map (fun n => (n : ℚ))
  | _ :: frac =>
    if intPart.isEmpty && frac.isEmpty then none
    else
      match decDigits intPart 0, decDigits frac 0 with
      | some i, some f => some ((i : ℚ) + (f : ℚ) / (10 : ℚ) ^ frac.length)
      | _, _ => none

/-- Parse a signed decimal numeral. -/
def parseSigned (l : List Char) : Option ℚ :=
  match l with
  | '+' :: rest => parseUnsigned rest
  | '-' :: rest => (parseUnsigned rest).map (fun q => -q)
  | _ => parseUnsigned l

/-- JS ToNumber on a string: trimmed; empty means 0; otherwise a decimal
numeral; anything else is NaN. -/
def strToNumber (s : String) : JSNum :=
  let t := jsTrim s.data
  if t.isEmpty then some 0 else parseSigned t

/-- JS ToNumber. -/
def toNumber : JSVal → JSNum
  | vUndefined => none
  | vNull => some 0
  | vBool b => some (if b then 1 else 0)
  | vNum n => n
  | vStr s => strToNumber s

/-- NaN-propagating addition on JS numbers. -/
def nAdd : JSNum → JSNum → JSNum
  | some a, some b => some (a + b)
  | _, _ => none

/-- NaN-propagating multiplication on JS numbers. -/
def nMul : JSNum → JSNum → JSNum
  | some a, some b => some (a * b)
  | _, _ => none

/-- JS comparison v > q against a number: ToNumber on v, NaN compares false. -/
def jsGT (v : JSVal) (q : ℚ) : Bool :=
  match toNumber v with
  | some x => decide (q < x)
  | none => false

/-- JS comparison v < q against a number: ToNumber on v, NaN compares false. -/
def jsLT (v : JSVal) (q : ℚ) : Bool :=
  match toNumber v with
  | some x => decide (x < q)
  | none => false

/-- Number of decimal digits needed for a terminating decimal expansion. -/
def decExponent (q : ℚ) : Option Nat :=
  (List.range 40).find? (fun k => (q * (10 : ℚ) ^ k).den = 1)

/-- Left-pad a digit string with zeros to width k. -/
def padZeros (k : Nat) (s : String) : String :=
  String.mk (List.replicate (k - s.length) '0') ++ s

/-- Decimal rendering of a nonnegative rational in shortest terminating form
(matches JS number printing on the terminating decimals the model meets). -/
def numToStringNN (q : ℚ) : String :=
  if q.den = 1 then toString q.num.toNat
  else
    match decExponent q with
    | some k =>
      let scaled := (q * (10 : ℚ) ^ k).num.toNat
      toString (scaled / 10 ^ k) ++ "." ++ padZeros k (toString (scaled % 10 ^ k))
    | none => "?"

/-- JS ToString of a number. -/
def numToString (q : ℚ) : String :=
  if q < 0 then "-" ++ numToStringNN (-q) else numToStringNN q

/-- JS ToString of a JS number (NaN prints as NaN). -/
def jsNumToString : JSNum → String
  | none => "NaN"
  | some q => numToString q

/-- JS ToString of a value, as used by template-literal interpolation. -/
def jsToString : JSVal → String
  | vUndefined => "undefined"
  | vNull => "null"
  | vBool b => if b then "true" else "false"
  | vNum n => jsNumToString n
  | vStr s => s

/-- JS binary + : string concatenation when either side is a string,
numeric addition otherwise. -/
def jsPlus (a b : JSVal) : JSVal :=
  match a, b with
  | vStr s, b => vStr (s ++ jsToString b)
  | a, vStr s => vStr (jsToString a ++ s)
  | a, b => vNum (nAdd (toNumber a) (toNumber b))

/-- LayerProperties: an untyped key-value mapping (a JS object). -/
abbrev LayerProperties := List (String × JSVal)

/-- JS property access: an absent key reads as undefined. -/
def getProp : LayerProperties → String → JSVal
  | [], _ => vUndefined
  | (k', v) :: rest, k => if k' = k then v else getProp rest k

/-- The idiom (properties.k as T) ?? fallback: nullish coalescing replaces
only null and undefined; any other value passes through unchanged. -/
def resolveProp (p : LayerProperties) (k : String) (fallback : JSVal) : JSVal :=
  match getProp p k with
  | vUndefined => fallback
  | vNull => fallback
  | v => v

/-- LayerBounds rectangle (the core renderers read only x, y, width, height). -/
structure LayerBounds where
  x : ℚ
  y : ℚ
  width : ℚ
  height : ℚ
  rotation : ℚ
  scaleX : ℚ
  scaleY : ℚ
deriving DecidableEq

/-- Built-in font catalog entry (src/src/text-tools.ts lines 292-296):
family name, allowed weights, and a category naming a fallback chain. -/
structure BuiltInFont where
  family : String
  weights : List Nat
  category : String
deriving DecidableEq

/-- BUILT_IN_FONTS (src/src/text-tools.ts lines 298-307): the static
catalog of eight built-in families. -/
def BUILT_IN_FONTS : List BuiltInFont :=
  [⟨"Inter", [400, 700], "sans-serif"⟩,
   ⟨"JetBrains Mono", [400], "monospace"⟩,
   ⟨"Georgia", [400, 700], "serif"⟩,
   ⟨"Arial", [400, 700], "sans-serif"⟩,
   ⟨"Helvetica", [400, 700], "sans-serif"⟩,
   ⟨"Times New Roman", [400, 700], "serif"⟩,
   ⟨"Courier New", [400, 700], "monospace"⟩,
   ⟨"Verdana", [400, 700], "sans-serif"⟩]

/-- FONT_FALLBACKS (src/src/text-tools.ts lines 310-315): system font
stack per category. -/
def FONT_FALLBACKS : List (String × String) :=
  [("sans-serif", "Inter, -apple-system, BlinkMacSystemFont, 'Segoe UI', sans-serif"),
   ("monospace", "'JetBrains Mono', 'SF Mono', 'Fira Code', monospace"),
   ("serif", "Georgia, 'Times New Roman', serif"),
   ("display", "Inter, -apple-system, sans-serif")]

/-- resolveFontStack (src/src/text-tools.ts lines 318-322): find the family
in the catalog; unknown families get a generic sans-serif fallback, known
ones the quoted family plus their category's fallback chain (with a
sans-serif default should the category be missing from the record). The
raster renderer passes the resolved fontFamily value through to it, so the
parameter is an untyped value interpolated by the template literal. -/
def resolveFontStack (family : JSVal) : String :=
  match BUILT_IN_FONTS.find? (fun f => vStr f.family == family) with
  | none => "'" ++ jsToString family ++ "', sans-serif"
  | some font =>
    "'" ++ jsToString family ++ "', "
      ++ ((FONT_FALLBACKS.lookup font.category).getD "sans-serif")

/-- Recorded mutation of / draw call on the CanvasRenderingContext2D handle,
in program order. Assignments of untyped values record the raw value. -/
inductive CtxEvent where
  | save : CtxEvent
  | restore : CtxEvent
  | setFont : String → CtxEvent
  | setTextAlign : JSVal → CtxEvent
  | setTextBaseline : JSVal → CtxEvent
  | setShadowColor : JSVal → CtxEvent
  | setShadowBlur : JSVal → CtxEvent
  | setShadowOffsetX : JSVal → CtxEvent
  | setShadowOffsetY : JSVal → CtxEvent
  | setStrokeStyle : JSVal → CtxEvent
  | setLineWidth : JSVal → CtxEvent
  | setLineJoin : String → CtxEvent
  | strokeText : String → ℚ → JSNum → CtxEvent
  | setFillStyle : JSVal → CtxEvent
  | fillText : String → ℚ → JSNum → CtxEvent
deriving DecidableEq

/-- Outcome of a raster render: the context events issued before returning
or before a TypeError propagated (threw = true means text.split was called
on a non-string value and the exception escaped renderText). -/
structure RenderResult where
  events : List CtxEvent
  threw : Bool
deriving DecidableEq

/-- JS exception of the model (calling a string method on a non-string). -/
inductive JSError where
  | typeError : JSError
deriving DecidableEq

/-- Split a character list at every line-feed character, as JS
text.split with a one-character separator does (trailing separators
produce trailing empty pieces). -/
def splitLF : List Char → List (List Char)
  | [] => [[]]
  | c :: cs =>
    match splitLF cs, decide (c = '\n') with
    | r, true => [] :: r
    | [], false => [[c]]
    | h :: t, false => (c :: h) :: t

/-- JS text.split on a line feed, on strings. -/
def jsSplitNewline (s : String) : List String :=
  (splitLF s.data).map (fun cs => String.mk cs)

/-- Anchor x computed by renderText (src/text-render.ts lines 44-49):
bounds.x, moved to the midpoint for center and to the right edge for right;
any other align value keeps the left anchor. -/
def textAnchorX (align : JSVal) (bounds : LayerBounds) : ℚ :=
  if align = vStr "center" then bounds.x + bounds.width / 2
  else if align = vStr "right" then bounds.x + bounds.width
  else bounds.x

/-- Per-line body of the render loop (src/text-render.ts lines 63-78):
optional stroke state and strokeText first, then fillStyle and fillText. -/
def lineDrawEvents (strokeOn : Bool) (strokeColor strokeWidth color : JSVal)
    (line : String) (x : ℚ) (y : JSNum) : List CtxEvent :=
  (if strokeOn then
    [CtxEvent.setStrokeStyle strokeColor, CtxEvent.setLineWidth strokeWidth,
     CtxEvent.setLineJoin "round", CtxEvent.strokeText line x y]
  else [])
  ++ [CtxEvent.setFillStyle color, CtxEvent.fillText line x y]

/-- Context-state events issued by renderText between save and the render
loop (src/text-render.ts lines 35-57): save, font string, alignment and
baseline assignments, then the shadow block when shadow is enabled. -/
def renderPreEvents (properties : LayerProperties) : List CtxEvent :=
  let fontSize := resolveProp properties "fontSize" (vNum (some 48))
  let fontFamily := resolveProp properties "fontFamily" (vStr "Inter")
  let fontWeight := resolveProp properties "fontWeight" (vStr "400")
  let fontStyle := resolveProp properties "fontStyle" (vStr "normal")
  let align := resolveProp properties "align" (vStr "left")
  let baseline := resolveProp properties "baseline" (vStr "top")
  let shadowEnabled := resolveProp properties "shadowEnabled" (vBool false)
  let shadowColor := resolveProp properties "shadowColor" (vStr "rgba(0,0,0,0.5)")
  let shadowBlur := resolveProp properties "shadowBlur" (vNum (some 4))
  let shadowOffsetX := resolveProp properties "shadowOffsetX" (vNum (some 2))
  let shadowOffsetY := resolveProp properties "shadowOffsetY" (vNum (some 2))
  let fontStack := resolveFontStack fontFamily
  [CtxEvent.save,
   CtxEvent.setFont (jsToString fontStyle ++ " " ++ jsToString fontWeight
     ++ " " ++ jsToString fontSize ++ "px " ++ fontStack),
   CtxEvent.setTextAlign align,
   CtxEvent.setTextBaseline baseline]
  ++ (if truthy shadowEnabled then
        [CtxEvent.setShadowColor shadowColor, CtxEvent.setShadowBlur shadowBlur,
         CtxEvent.setShadowOffsetX shadowOffsetX, CtxEvent.setShadowOffsetY shadowOffsetY]
      else [])

/-- Events issued by the render loop of renderText
(src/text-render.ts lines 59-78) for resolved text s: split s on line
feeds, and per line emit the optional stroke block and the fill, with
lineSpacing = fontSize * lineHeight under JS numeric coercion. -/
def renderLineEvents (properties : LayerProperties) (bounds : LayerBounds)
    (s : String) : List CtxEvent :=
  let fontSize := resolveProp properties "fontSize" (vNum (some 48))
  let color := resolveProp properties "color" (vStr "#ffffff")
  let align := resolveProp properties "align" (vStr "left")
  let lineHeight := resolveProp properties "lineHeight" (vNum (some 1.2))
  let strokeEnabled := resolveProp properties "strokeEnabled" (vBool false)
  let strokeColor := resolveProp properties "strokeColor" (vStr "#000000")
  let strokeWidth := resolveProp properties "strokeWidth" (vNum (some 2))
  let x := textAnchorX align bounds
  let lines := jsSplitNewline s
  let lineSpacing := nMul (toNumber fontSize) (toNumber lineHeight)
  let strokeOn := truthy strokeEnabled && jsGT strokeWidth 0
  (List.range lines.length).flatMap (fun i =>
    lineDrawEvents strokeOn strokeColor strokeWidth color (lines.getD i "")
      x (nAdd (some bounds.y) (nMul (some (i : ℚ)) lineSpacing)))

/-- renderText (src/text-render.ts): resolve every styling property with a
nullish-coalescing fallback, return early on falsy text, save the context,
set font and alignment state, optionally set shadow state, then stroke/fill
each line split on line feeds, and restore. text.split throws a TypeError
when the resolved text is a truthy non-string, after save was issued and
before any restore, so the exception escapes with the context unreleased. -/
def renderText (properties : LayerProperties) (bounds : LayerBounds) : RenderResult :=
  let text := resolveProp properties "text" (vStr "")
  if truthy text = false then ⟨[], false⟩
  else
    match text with
    | vStr s =>
      ⟨renderPreEvents properties ++ renderLineEvents properties bounds s
        ++ [CtxEvent.restore], false⟩
    | _ => ⟨renderPreEvents properties, true⟩

/-- Replace every occurrence of the character c by the string r (the JS
single-character global-regex replace), on character lists. -/
def replaceCharL (c : Char) (r : List Char) : List Char → List Char
  | [] => []
  | a :: as => (if a = c then r else [a]) ++ replaceCharL c r as

/-- Replace every occurrence of the character c by the string r, on strings. -/
def replaceChar (c : Char) (r : String) (s : String) : String :=
  String.mk (replaceCharL c r.data s.data)

/-- The escaping applied by renderSVG to element text content
(src/text-layer.ts lines 220-223): replace all ampersands first,
then all less-than signs, then all greater-than signs. -/
def svgEscape (s : String) : String :=
  replaceChar '>' "&gt;" (replaceChar '<' "&lt;" (replaceChar '&' "&amp;" s))

/-- Anchor keyword computed by renderSVG (src/text-layer.ts lines 210-218):
start, switched to middle for center and end for right. -/
def svgTextAnchor (align : JSVal) : String :=
  if align = vStr "center" then "middle"
  else if align = vStr "right" then "end"
  else "start"

/-- Anchor x computed by renderSVG in the same if/else chain
(src/text-layer.ts lines 210-218). -/
def svgAnchorX (align : JSVal) (bounds : LayerBounds) : ℚ :=
  if align = vStr "center" then bounds.x + bounds.width / 2
  else if align = vStr "right" then bounds.x + bounds.width
  else bounds.x

/-- renderSVG (src/text-layer.ts lines 197-226): resolve text and styling
with the same fallbacks as the raster renderer, compute anchor keyword and
x, escape the text content, and emit one text element whose attribute
values are interpolated verbatim. text.replace throws a TypeError when the
resolved text is not a string. -/
def renderSVG (properties : LayerProperties) (bounds : LayerBounds) :
    Except JSError String :=
  let text := resolveProp properties "text" (vStr "")
  let fontSize := resolveProp properties "fontSize" (vNum (some 48))
  let fontFamily := resolveProp properties "fontFamily" (vStr "Inter")
  let fontWeight := resolveProp properties "fontWeight" (vStr "400")
  let fontStyle := resolveProp properties "fontStyle" (vStr "normal")
  let color := resolveProp properties "color" (vStr "#ffffff")
  let align := resolveProp properties "align" (vStr "left")
  let anchor := svgTextAnchor align
  let x := svgAnchorX align bounds
  match text with
  | vStr s =>
    let escaped := svgEscape s
    Except.ok ("<text x=\"" ++ numToString x ++ "\" " ++ "y=\""
      ++ jsToString (jsPlus (vNum (some bounds.y)) fontSize) ++ "\" "
      ++ "font-family=\"" ++ jsToString fontFamily ++ "\" "
      ++ "font-size=\"" ++ jsToString fontSize ++ "\" "
      ++ "font-weight=\"" ++ jsToString fontWeight ++ "\" "
      ++ "font-style=\"" ++ jsToString fontStyle ++ "\" "
      ++ "fill=\"" ++ jsToString color ++ "\" "
      ++ "text-anchor=\"" ++ anchor ++ "\">" ++ escaped ++ "</text>")
  | _ => Except.error JSError.typeError

/-- Validation violation: offending property key and human-readable message. -/
structure ValidationError where
  property : String
  message : String
deriving DecidableEq

/-- validate (src/text-layer.ts lines 228-252): collect violations for text
(must be a string), fontSize (must be of number type and pass the JS
comparisons fontSize < 1 and fontSize > 1000 both false) and fontWeight
(must be the literal string 400 or 700), in that order; null when none. -/
def validate (properties : LayerProperties) : Option (List ValidationError) :=
  let textErrs : List ValidationError :=
    if isString (getProp properties "text") then []
    else [⟨"text", "Text must be a string"⟩]
  let fontSize := getProp properties "fontSize"
  let fsErrs : List ValidationError :=
    if isNumber fontSize = false || jsLT fontSize 1 || jsGT fontSize 1000 then
      [⟨"fontSize", "Font size must be a number between 1 and 1000"⟩]
    else []
  let fontWeight := getProp properties "fontWeight"
  let fwErrs : List ValidationError :=
    if fontWeight = vStr "400" ∨ fontWeight = vStr "700" then []
    else [⟨"fontWeight", "Font weight must be '400' or '700'"⟩]
  let errors := textErrs ++ fsErrs ++ fwErrs
  if errors.isEmpty then none else some errors

/-- Property type tags of the schema descriptors. -/
inductive PropType where
  | string : PropType
  | number : PropType
  | boolean : PropType
  | color : PropType
  | select : PropType
deriving DecidableEq

/-- Option entry of a select descriptor. -/
structure SelectOption where
  value : String
  optLabel : String
deriving DecidableEq

/-- Property descriptor of the text layer schema (key, label, type, default,
UI group, numeric bounds and select options where applicable). -/
structure LayerPropertySchema where
  key : String
  label : String
  type : PropType
  default : JSVal
  group : String
  min : Option ℚ := none
  max : Option ℚ := none
  step : Option ℚ := none
  options : List SelectOption := []
deriving DecidableEq

/-- The ordered descriptor list TEXT_PROPERTIES (src/text-layer.ts lines
12-170). -/
def TEXT_PROPERTIES : List LayerPropertySchema :=
  [{ key := "text", label := "Text", type := PropType.string,
     default := vStr "Hello World", group := "content" },
   { key := "fontFamily", label := "Font Family", type := PropType.select,
     default := vStr "Inter", group := "font",
     options := BUILT_IN_FONTS.map (fun f => ⟨f.family, f.family⟩) },
   { key := "fontSize", label := "Font Size", type := PropType.number,
     default := vNum (some 48), group := "font",
     min := some 1, max := some 1000, step := some 1 },
   { key := "fontWeight", label := "Font Weight", type := PropType.select,
     default := vStr "400", group := "font",
     options := [⟨"400", "Regular"⟩, ⟨"700", "Bold"⟩] },
   { key := "fontStyle", label := "Font Style", type := PropType.select,
     default := vStr "normal", group := "font",
     options := [⟨"normal", "Normal"⟩, ⟨"italic", "Italic"⟩] },
   { key := "color", label := "Color", type := PropType.color,
     default := vStr "#ffffff", group := "style" },
   { key := "align", label := "Alignment", type := PropType.select,
     default := vStr "left", group := "layout",
     options := [⟨"left", "Left"⟩, ⟨"center", "Center"⟩, ⟨"right", "Right"⟩] },
   { key := "baseline", label := "Baseline", type := PropType.select,
     default := vStr "top", group := "layout",
     options := [⟨"top", "Top"⟩, ⟨"middle", "Middle"⟩,
       ⟨"alphabetic", "Alphabetic"⟩, ⟨"bottom", "Bottom"⟩] },
   { key := "lineHeight", label := "Line Height", type := PropType.number,
     default := vNum (some 1.2), group := "layout",
     min := some 0.5, max := some 5, step := some 0.1 },
   { key := "strokeEnabled", label := "Stroke Enabled", type := PropType.boolean,
     default := vBool false, group := "stroke" },
   { key := "strokeColor", label := "Stroke Color", type := PropType.color,
     default := vStr "#000000", group := "stroke" },
   { key := "strokeWidth", label := "Stroke Width", type := PropType.number,
     default := vNum (some 2), group := "stroke",
     min := some 0, max := some 50, step := some 0.5 },
   { key := "shadowEnabled", label := "Shadow Enabled", type := PropType.boolean,
     default := vBool false, group := "shadow" },
   { key := "shadowColor", label := "Shadow Color", type := PropType.color,
     default := vStr "rgba(0,0,0,0.5)", group := "shadow" },
   { key := "shadowBlur", label := "Shadow Blur", type := PropType.number,
     default := vNum (some 4), group := "shadow",
     min := some 0, max := some 100, step := some 1 },
   { key := "shadowOffsetX", label := "Shadow Offset X", type := PropType.number,
     default := vNum (some 2), group := "shadow",
     min := some (-100), max := some 100, step := some 1 },
   { key := "shadowOffsetY", label := "Shadow Offset Y", type := PropType.number,
     default := vNum (some 2), group := "shadow",
     min := some (-100), max := some 100, step := some 1 }]

/-- createDefault (src/text-layer.ts lines 180-186): a fresh mapping holding
each descriptor's default under its key, in declaration order. -/
def createDefault : LayerProperties :=
  TEXT_PROPERTIES.map (fun schema => (schema.key, schema.default))

/-- Object heap for modelling allocation identity: addresses are indices,
each cell holds one LayerProperties object. -/
abbrev Heap := List LayerProperties

/-- createDefault as observed through the heap: each call allocates a fresh
object and fills it from the schema, returning its new address. -/
def createDefaultAlloc (h : Heap) : Nat × Heap :=
  (h.length, h ++ [createDefault])

/-- Read the object at an address (empty object for a dangling address). -/
def heapGet (h : Heap) (a : Nat) : LayerProperties := h.getD a []

/-- JS property assignment obj.k = v on a mapping. -/
def setKey : LayerProperties → String → JSVal → LayerProperties
  | [], k, v => [(k, v)]
  | (k', v') :: rest, k, v =>
    if k' = k then (k, v) :: rest else (k', v') :: setKey rest k v

/-- JS property assignment through the heap: mutate the object at address a. -/
def heapSet (h : Heap) (a : Nat) (k : String) (v : JSVal) : Heap :=
  h.set a (setKey (heapGet h a) k v)

/-- Event classifiers used to state frame-effect properties. -/
def isSaveEv : CtxEvent → Bool
  | CtxEvent.save => true
  | _ => false

/-- True exactly on restore events. -/
def isRestoreEv : CtxEvent → Bool
  | CtxEvent.restore => true
  | _ => false

/-- True exactly on fillText events. -/
def isFillEv : CtxEvent → Bool
  | CtxEvent.fillText _ _ _ => true
  | _ => false

/-- True exactly on strokeText events. -/
def isStrokeEv : CtxEvent → Bool
  | CtxEvent.strokeText _ _ _ => true
  | _ => false

/-- True exactly on the two draw calls (strokeText or fillText). -/
def isDrawEv : CtxEvent → Bool
  | CtxEvent.strokeText _ _ _ => true
  | CtxEvent.fillText _ _ _ => true
  | _ => false

/-- Anchor x of a draw call event, if any. -/
def drawX : CtxEvent → Option ℚ
  | CtxEvent.strokeText _ x _ => some x
  | CtxEvent.fillText _ x _ => some x
  | _ => none

/-- Single-pass character escaping (the specification-side description of
the escape: each of the three markup-significant characters is substituted
exactly once, everything else is kept). -/
def escCharL (c : Char) : List Char :=
  if c = '&' then "&amp;".data
  else if c = '<' then "&lt;".data
  else if c = '>' then "&gt;".data
  else [c]

/-- Sample bounds used by concrete instances (the repository tests use the
same rectangle). -/
def sampleBounds : LayerBounds := ⟨10, 20, 400, 100, 0, 1, 1⟩

/-- Concrete mapping with a numeric (non-string, non-null) text value. -/
def numericTextProps : LayerProperties := [("text", vNum (some 5))]

/-- Concrete mapping with string text and a mistyped (string) fontSize. -/
def mistypedFontSizeProps : LayerProperties :=
  [("text", vStr "A"), ("fontSize", vStr "huge")]

/-- Concrete mapping with string text and fontSize absent. -/
def absentFontSizeProps : LayerProperties := [("text", vStr "A")]

/-- Concrete mapping whose fontSize is NaN (a value of number type). -/
def nanFontSizeProps : LayerProperties :=
  [("text", vStr "hi"), ("fontSize", vNum none), ("fontWeight", vStr "400")]

/-- Concrete mapping for the three-line layout instance of the spec. -/
def threeLineProps : LayerProperties :=
  [("text", vStr "a\nb\nc"), ("fontSize", vNum (some 24)),
   ("lineHeight", vNum (some 1.5))]

/-- Concrete mapping with markup-significant characters in the text. -/
def markupTextProps : LayerProperties := [("text", vStr "<script>&test")]

/-- Concrete mapping with stroke enabled and a positive stroke width. -/
def strokedProps : LayerProperties :=
  [("text", vStr "one\ntwo"), ("strokeEnabled", vBool true),
   ("strokeWidth", vNum (some 3))]

/-- Concrete mapping whose color value contains a double-quote character. -/
def quotedColorProps : LayerProperties :=
  [("text", vStr "X"), ("color", vStr "a\"b")]

/-- Concrete mapping with plain default-like text (for anchor instances). -/
def helloProps : LayerProperties := [("text", vStr "Hello World")]

/-- Filtering distributes over flatMap. -/
theorem filter_flatMapL {α β : Type} (l : List α) (f : α → List β) (pr : β → Bool) :
    (l.flatMap f).filter pr = l.flatMap (fun a => (f a).filter pr) := by
  induction l with
  | nil => rfl
  | cons a l ih => simp [List.flatMap_cons, List.filter_append, ih]

/-- Counting distributes over flatMap. -/
theorem countP_flatMapL {α β : Type} (l : List α) (f : α → List β) (pr : β → Bool) :
    (l.flatMap f).countP pr = (l.map (fun a => (f a).countP pr)).sum := by
  induction l with
  | nil => rfl
  | cons a l ih => simp [List.flatMap_cons, List.countP_append, ih]

/-- A flatMap of singletons is a map. -/
theorem flatMap_singletonL {α β : Type} (l : List α) (g : α → β) :
    l.flatMap (fun a => [g a]) = l.map g := by
  induction l with
  | nil => rfl
  | cons a l ih => simp [List.flatMap_cons, ih]

/-- The pre-loop events contain exactly one save. -/
theorem renderPreEvents_save_count (p : LayerProperties) :
    (renderPreEvents p).countP isSaveEv = 1 := by
  unfold renderPreEvents
  cases h : truthy (resolveProp p "shadowEnabled" (vBool false)) <;>
    simp [h, List.countP_append, List.countP_cons, isSaveEv]

/-- The pre-loop events contain no restore. -/
theorem renderPreEvents_restore_count (p : LayerProperties) :
    (renderPreEvents p).countP isRestoreEv = 0 := by
  unfold renderPreEvents
  cases h : truthy (resolveProp p "shadowEnabled" (vBool false)) <;>
    simp [h, List.countP_append, List.countP_cons, isRestoreEv]

/-- The pre-loop events contain no draw call. -/
theorem renderPreEvents_no_draw (p : LayerProperties) :
    (renderPreEvents p).filter isDrawEv = [] := by
  unfold renderPreEvents
  cases h : truthy (resolveProp p "shadowEnabled" (vBool false)) <;>
    simp [h, List.filter_append, isDrawEv]

/-- The pre-loop events contain no fill. -/
theorem renderPreEvents_no_fill (p : LayerProperties) :
    (renderPreEvents p).filter isFillEv = [] := by
  unfold renderPreEvents
  cases h : truthy (resolveProp p "shadowEnabled" (vBool false)) <;>
    simp [h, List.filter_append, isFillEv]

/-- The pre-loop events contain no stroke. -/
theorem renderPreEvents_no_stroke (p : LayerProperties) :
    (renderPreEvents p).filter isStrokeEv = [] := by
  unfold renderPreEvents
  cases h : truthy (resolveProp p "shadowEnabled" (vBool false)) <;>
    simp [h, List.filter_append, isStrokeEv]

/-- Per-line events: the fill calls are exactly one fill. -/
theorem lineDrawEvents_filter_fill (so : Bool) (sc sw c : JSVal) (line : String)
    (x : ℚ) (y : JSNum) :
    (lineDrawEvents so sc sw c line x y).filter isFillEv
      = [CtxEvent.fillText line x y] := by
  rcases so <;> simp [lineDrawEvents, isFillEv]

/-- Per-line events: the stroke calls are one stroke if enabled, else none. -/
theorem lineDrawEvents_filter_stroke (so : Bool) (sc sw c : JSVal) (line : String)
    (x : ℚ) (y : JSNum) :
    (lineDrawEvents so sc sw c line x y).filter isStrokeEv
      = if so then [CtxEvent.strokeText line x y] else [] := by
  rcases so <;> simp [lineDrawEvents, isStrokeEv]

/-- Per-line events: the draw calls are the optional stroke then the fill. -/
theorem lineDrawEvents_filter_draw (so : Bool) (sc sw c : JSVal) (line : String)
    (x : ℚ) (y : JSNum) :
    (lineDrawEvents so sc sw c line x y).filter isDrawEv
      = (if so then [CtxEvent.strokeText line x y] else [])
        ++ [CtxEvent.fillText line x y] := by
  rcases so <;> simp [lineDrawEvents, isDrawEv]

/-- Per-line events contain no save. -/
theorem lineDrawEvents_save_count (so : Bool) (sc sw c : JSVal) (line : String)
    (x : ℚ) (y : JSNum) :
    (lineDrawEvents so sc sw c line x y).countP isSaveEv = 0 := by
  rcases so <;> simp [lineDrawEvents, List.countP_cons, isSaveEv]

/-- Per-line events contain no restore. -/
theorem lineDrawEvents_restore_count (so : Bool) (sc sw c : JSVal) (line : String)
    (x : ℚ) (y : JSNum) :
    (lineDrawEvents so sc sw c line x y).countP isRestoreEv = 0 := by
  rcases so <;> simp [lineDrawEvents, List.countP_cons, isRestoreEv]

/-- renderText on a truthy resolved string: save, state, loop, restore. -/
theorem renderText_of_str (p : LayerProperties) (b : LayerBounds) (s : String)
    (hs : resolveProp p "text" (vStr "") = vStr s) (hne : s ≠ "") :
    renderText p b =
      ⟨renderPreEvents p ++ renderLineEvents p b s ++ [CtxEvent.restore], false⟩ := by
  have ht : truthy (vStr s) = true := by simp [truthy, hne]
  simp [renderText, hs, ht]

/-- renderText on a falsy resolved text: nothing at all happens. -/
theorem renderText_of_falsy (p : LayerProperties) (b : LayerBounds)
    (h : truthy (resolveProp p "text" (vStr "")) = false) :
    renderText p b = ⟨[], false⟩ := by
  simp [renderText, h]

/-- renderText on a truthy non-string resolved text: the pre-loop events are
issued, then the TypeError from text.split escapes. -/
theorem renderText_of_nonstr (p : LayerProperties) (b : LayerBounds)
    (ht : truthy (resolveProp p "text" (vStr "")) = true)
    (hns : isString (resolveProp p "text" (vStr "")) = false) :
    renderText p b = ⟨renderPreEvents p, true⟩ := by
  rcases hx : resolveProp p "text" (vStr "") with _ | _ | bb | nn | ss <;>
    rw [hx] at ht hns <;> simp_all [renderText, isString, hx]

/-- The line-loop events of renderText, written as one flatMap. -/
theorem renderLineEvents_eq (p : LayerProperties) (b : LayerBounds) (s : String) :
    renderLineEvents p b s =
      (List.range (jsSplitNewline s).length).flatMap (fun i =>
        lineDrawEvents
          (truthy (resolveProp p "strokeEnabled" (vBool false))
            && jsGT (resolveProp p "strokeWidth" (vNum (some 2))) 0)
          (resolveProp p "strokeColor" (vStr "#000000"))
          (resolveProp p "strokeWidth" (vNum (some 2)))
          (resolveProp p "color" (vStr "#ffffff"))
          ((jsSplitNewline s).getD i "")
          (textAnchorX (resolveProp p "align" (vStr "left")) b)
          (nAdd (some b.y) (nMul (some (i : ℚ))
            (nMul (toNumber (resolveProp p "fontSize" (vNum (some 48))))
              (toNumber (resolveProp p "lineHeight" (vNum (some 1.2)))))))) := by
  rfl

/-- replaceCharL distributes over list append. -/
theorem replaceCharL_append (c : Char) (r : List Char) (xs ys : List Char) :
    replaceCharL c r (xs ++ ys) = replaceCharL c r xs ++ replaceCharL c r ys := by
  induction xs with
  | nil => rfl
  | cons a as ih => simp [replaceCharL, ih]

/-- Head case of the escape: the three replaces on a single character agree
with the single-pass escape of that character. -/
theorem escape_head (a : Char) :
    replaceCharL '>' "&gt;".data (replaceCharL '<' "&lt;".data
      (replaceCharL '&' "&amp;".data [a])) = escCharL a := by
  by_cases h1 : a = '&'
  · subst h1; decide
  · by_cases h2 : a = '<'
    · subst h2; decide
    · by_cases h3 : a = '>'
      · subst h3; decide
      · simp [replaceCharL, escCharL, h1, h2, h3]

/-- The three sequential global replaces equal one simultaneous pass:
no character produced by an earlier substitution is escaped again. -/
theorem escape_single_pass_l (l : List Char) :
    replaceCharL '>' "&gt;".data (replaceCharL '<' "&lt;".data
      (replaceCharL '&' "&amp;".data l)) = l.flatMap escCharL := by
  induction l with
  | nil => rfl
  | cons a as ih =>
    have hsplit : (a :: as) = [a] ++ as := rfl
    rw [hsplit, replaceCharL_append, replaceCharL_append, replaceCharL_append,
      ih, escape_head]
    simp [List.flatMap_append]

/-- renderSVG on a resolved string text: the emitted element, fully expanded. -/
theorem renderSVG_of_str (p : LayerProperties) (b : LayerBounds) (s : String)
    (hs : resolveProp p "text" (vStr "") = vStr s) :
    renderSVG p b = Except.ok
      ("<text x=\"" ++ numToString (svgAnchorX (resolveProp p "align" (vStr "left")) b)
        ++ "\" " ++ "y=\""
        ++ jsToString (jsPlus (vNum (some b.y)) (resolveProp p "fontSize" (vNum (some 48))))
        ++ "\" " ++ "font-family=\"" ++ jsToString (resolveProp p "fontFamily" (vStr "Inter"))
        ++ "\" " ++ "font-size=\"" ++ jsToString (resolveProp p "fontSize" (vNum (some 48)))
        ++ "\" " ++ "font-weight=\"" ++ jsToString (resolveProp p "fontWeight" (vStr "400"))
        ++ "\" " ++ "font-style=\"" ++ jsToString (resolveProp p "fontStyle" (vStr "normal"))
        ++ "\" " ++ "fill=\"" ++ jsToString (resolveProp p "color" (vStr "#ffffff"))
        ++ "\" " ++ "text-anchor=\"" ++ svgTextAnchor (resolveProp p "align" (vStr "left"))
        ++ "\">" ++ svgEscape s ++ "</text>") := by
  simp [renderSVG, hs]

/-- renderSVG on a resolved non-string text: the TypeError from text.replace. -/
theorem renderSVG_of_nonstr (p : LayerProperties) (b : LayerBounds)
    (h : isString (resolveProp p "text" (vStr "")) = false) :
    renderSVG p b = Except.error JSError.typeError := by
  rcases hx : resolveProp p "text" (vStr "") with _ | _ | bb | nn | ss <;>
    simp_all [renderSVG, isString, hx]

/-- Claim C7: renderSVG escapes exactly the three characters ampersand,
less-than and greater-than in the element text content, ampersand first,
so that the sequential substitutions equal a single simultaneous pass and
no produced entity is escaped twice; on text containing a script tag and an
ampersand the output contains the expected entities, each original
ampersand escaped exactly once. -/
theorem svg_escape_order_claim :
    (∀ s : String, svgEscape s = String.mk (s.data.flatMap escCharL))
    ∧ svgEscape "<script>&test" = "&lt;script&gt;&amp;test"
    ∧ (∃ out, renderSVG markupTextProps sampleBounds = Except.ok out
        ∧ ∃ pre post, out = pre ++ "&lt;script&gt;&amp;test" ++ post) := by
  refine ⟨fun s => ?_, by decide, ?_⟩
  · show String.mk (replaceCharL '>' "&gt;".data (replaceCharL '<' "&lt;".data
      (replaceCharL '&' "&amp;".data s.data))) = String.mk (s.data.flatMap escCharL)
    rw [escape_single_pass_l]
  · refine ⟨_, renderSVG_of_str markupTextProps sampleBounds "<script>&test" rfl, ?_⟩
    refine ⟨"<text x=\""
        ++ numToString (svgAnchorX (resolveProp markupTextProps "align" (vStr "left")) sampleBounds)
        ++ "\" " ++ "y=\""
        ++ jsToString (jsPlus (vNum (some sampleBounds.y))
            (resolveProp markupTextProps "fontSize" (vNum (some 48))))
        ++ "\" " ++ "font-family=\""
        ++ jsToString (resolveProp markupTextProps "fontFamily" (vStr "Inter"))
        ++ "\" " ++ "font-size=\""
        ++ jsToString (resolveProp markupTextProps "fontSize" (vNum (some 48)))
        ++ "\" " ++ "font-weight=\""
        ++ jsToString (resolveProp markupTextProps "fontWeight" (vStr "400"))
        ++ "\" " ++ "font-style=\""
        ++ jsToString (resolveProp markupTextProps "fontStyle" (vStr "normal"))
        ++ "\" " ++ "fill=\""
        ++ jsToString (resolveProp markupTextProps "color" (vStr "#ffffff"))
        ++ "\" " ++ "text-anchor=\""
        ++ svgTextAnchor (resolveProp markupTextProps "align" (vStr "left"))
        ++ "\">", "</text>", ?_⟩
    rw [show svgEscape "<script>&test" = "&lt;script&gt;&amp;test" from by decide]

/-- Claim C4 counterexample: with fontSize = NaN (a value of number type),
validate returns null although NaN is not within [1, 1000]; the JS
comparisons NaN < 1 and NaN > 1000 are both false, so the range check
passes vacuously. -/
theorem validate_nan_fontSize_cx :
    validate nanFontSizeProps = none
    ∧ isNumber (getProp nanFontSizeProps "fontSize") = true
    ∧ (∀ q : ℚ, ¬(getProp nanFontSizeProps "fontSize" = vNum (some q)
        ∧ 1 ≤ q ∧ q ≤ 1000)) := by
  refine ⟨by decide, by decide, ?_⟩
  rintro q ⟨h, -, -⟩
  rw [show getProp nanFontSizeProps "fontSize" = vNum none from by decide] at h
  simp at h

/-- Claim C4 amended: validate returns null exactly when text is a string,
fontSize is of number type with the JS comparisons fontSize < 1 and
fontSize > 1000 both false (NaN passes both and is therefore accepted),
and fontWeight is the literal string 400 or 700; otherwise it returns the
violations of exactly the failing keys in the order text, fontSize,
fontWeight; every numeric non-NaN fontSize outside [1, 1000] yields a
fontSize violation; and validate(createDefault()) returns null. -/
theorem validate_characterization (p : LayerProperties) :
    (validate p = none ↔
      (isString (getProp p "text") = true
        ∧ isNumber (getProp p "fontSize") = true
        ∧ jsLT (getProp p "fontSize") 1 = false
        ∧ jsGT (getProp p "fontSize") 1000 = false
        ∧ (getProp p "fontWeight" = vStr "400" ∨ getProp p "fontWeight" = vStr "700")))
    ∧ (∀ l, validate p = some l → l ≠ [] ∧ l =
        (if isString (getProp p "text") = true then []
         else [ValidationError.mk "text" "Text must be a string"])
        ++ (if isNumber (getProp p "fontSize") = true
              ∧ jsLT (getProp p "fontSize") 1 = false
              ∧ jsGT (getProp p "fontSize") 1000 = false then []
            else [ValidationError.mk "fontSize"
              "Font size must be a number between 1 and 1000"])
        ++ (if getProp p "fontWeight" = vStr "400" ∨ getProp p "fontWeight" = vStr "700"
            then []
            else [ValidationError.mk "fontWeight" "Font weight must be '400' or '700'"]))
    ∧ (∀ q : ℚ, getProp p "fontSize" = vNum (some q) → q < 1 ∨ 1000 < q →
        ValidationError.mk "fontSize" "Font size must be a number between 1 and 1000"
          ∈ (validate p).getD [])
    ∧ validate createDefault = none := by
  refine ⟨?_, ?_, ?_, by decide⟩
  · rcases h1 : isString (getProp p "text") <;>
      rcases h2 : isNumber (getProp p "fontSize") <;>
      rcases h3 : jsLT (getProp p "fontSize") 1 <;>
      rcases h4 : jsGT (getProp p "fontSize") 1000 <;>
      by_cases h5 : (getProp p "fontWeight" = vStr "400"
        ∨ getProp p "fontWeight" = vStr "700") <;>
      simp [validate, h1, h2, h3, h4, h5]
  · intro l hl
    rcases h1 : isString (getProp p "text") <;>
      rcases h2 : isNumber (getProp p "fontSize") <;>
      rcases h3 : jsLT (getProp p "fontSize") 1 <;>
      rcases h4 : jsGT (getProp p "fontSize") 1000 <;>
      by_cases h5 : (getProp p "fontWeight" = vStr "400"
        ∨ getProp p "fontWeight" = vStr "700") <;>
      simp_all [validate, h1, h2, h3, h4, h5] <;>
      (intro hh; subst hh; simp_all)
  · intro q hq hrange
    have h2 : isNumber (getProp p "fontSize") = true := by rw [hq]; rfl
    have h34 : jsLT (getProp p "fontSize") 1 = true ∨ jsGT (getProp p "fontSize") 1000 = true := by
      rcases hrange with h | h
      · left; rw [hq]; simp [jsLT, toNumber, h]
      · right; rw [hq]; simp [jsGT, toNumber, h]
    rcases h1 : isString (getProp p "text") <;>
      by_cases h5 : (getProp p "fontWeight" = vStr "400"
        ∨ getProp p "fontWeight" = vStr "700") <;>
      rcases h34 with h34 | h34 <;>
      simp [validate, h1, h2, h34, h5]

/-- Witness for the validate characterization: a mapping failing all three
checks yields the three ordered violations, a numeric out-of-range fontSize
yields a fontSize violation, and the defaults validate to null. -/
theorem validate_characterization_witness :
    ([ValidationError.mk "text" "Text must be a string",
      ValidationError.mk "fontSize" "Font size must be a number between 1 and 1000",
      ValidationError.mk "fontWeight" "Font weight must be '400' or '700'"]
        ≠ ([] : List ValidationError))
    ∧ ValidationError.mk "fontSize" "Font size must be a number between 1 and 1000"
        ∈ (validate [("text", vStr "ok"), ("fontSize", vNum (some 2000)),
            ("fontWeight", vStr "400")]).getD []
    ∧ validate createDefault = none :=
  ⟨((validate_characterization [("text", vNum (some 7))]).2.1
      [ValidationError.mk "text" "Text must be a string",
       ValidationError.mk "fontSize" "Font size must be a number between 1 and 1000",
       ValidationError.mk "fontWeight" "Font weight must be '400' or '700'"]
      (by decide)).1,
   (validate_characterization [("text", vStr "ok"), ("fontSize", vNum (some 2000)),
      ("fontWeight", vStr "400")]).2.2.1 2000 (by decide) (Or.inr (by norm_num)),
   (validate_characterization []).2.2.2⟩

/-- Reading an appended list past the prefix. -/
theorem getD_append_len {α : Type} (h t : List α) (i : Nat) (d : α) :
    (h ++ t).getD (h.length + i) d = t.getD i d := by
  induction h with
  | nil => simp
  | cons a h ih => simpa [Nat.succ_add] using ih

/-- Setting an appended list past the prefix. -/
theorem set_append_len {α : Type} (h t : List α) (i : Nat) (x : α) :
    (h ++ t).set (h.length + i) x = h ++ t.set i x := by
  induction h with
  | nil => simp
  | cons a h ih => simp [Nat.succ_add, ih]

/-- Claim C9: createDefault returns a mapping with exactly one entry per
schema descriptor key (in declaration order, with no duplicate keys), each
equal to that descriptor's default; two consecutive calls allocate distinct
objects with equal values, and mutating any key of the first leaves the
second unchanged. -/
theorem createDefault_contract (h : Heap) (k : String) (v : JSVal) :
    ((createDefaultAlloc h).1 ≠ (createDefaultAlloc (createDefaultAlloc h).2).1)
    ∧ heapGet (createDefaultAlloc (createDefaultAlloc h).2).2 (createDefaultAlloc h).1
        = heapGet (createDefaultAlloc (createDefaultAlloc h).2).2
            (createDefaultAlloc (createDefaultAlloc h).2).1
    ∧ heapGet
        (heapSet (createDefaultAlloc (createDefaultAlloc h).2).2
          (createDefaultAlloc h).1 k v)
        (createDefaultAlloc (createDefaultAlloc h).2).1
      = heapGet (createDefaultAlloc (createDefaultAlloc h).2).2
          (createDefaultAlloc (createDefaultAlloc h).2).1
    ∧ createDefault.map Prod.fst = TEXT_PROPERTIES.map LayerPropertySchema.key
    ∧ (createDefault.map Prod.fst).Nodup
    ∧ (∀ d ∈ TEXT_PROPERTIES, getProp createDefault d.key = d.default) := by
  have hassoc : (h ++ [createDefault]) ++ [createDefault]
      = h ++ [createDefault, createDefault] := by simp
  have hlen : (h ++ [createDefault]).length = h.length + 1 := by simp
  have e1 : List.getD (h ++ [createDefault, createDefault]) h.length [] = createDefault := by
    simpa using getD_append_len h [createDefault, createDefault] 0 []
  have e2 : List.getD (h ++ [createDefault, createDefault]) (h.length + 1) []
      = createDefault := by
    simpa using getD_append_len h [createDefault, createDefault] 1 []
  refine ⟨?_, ?_, ?_, by decide, by decide, ?_⟩
  · simp [createDefaultAlloc]
  · show ((h ++ [createDefault]) ++ [createDefault]).getD (h.length) []
      = ((h ++ [createDefault]) ++ [createDefault]).getD ((h ++ [createDefault]).length) []
    rw [hassoc, hlen, e1, e2]
  · show (((h ++ [createDefault]) ++ [createDefault]).set h.length
        (setKey (((h ++ [createDefault]) ++ [createDefault]).getD h.length []) k v)).getD
          ((h ++ [createDefault]).length) []
      = ((h ++ [createDefault]) ++ [createDefault]).getD ((h ++ [createDefault]).length) []
    rw [hassoc, hlen, e1, e2]
    have e3 : (h ++ [createDefault, createDefault]).set h.length (setKey createDefault k v)
        = h ++ [setKey createDefault k v, createDefault] := by
      have e5 := set_append_len h [createDefault, createDefault] 0 (setKey createDefault k v)
      rw [Nat.add_zero] at e5
      rw [e5]
      rfl
    rw [e3]
    have e4 := getD_append_len h [setKey createDefault k v, createDefault] 1 []
    rw [show h.length + 1 = (h ++ [setKey createDefault k v]).length by simp] at e4 ⊢
    rw [show h ++ [setKey createDefault k v, createDefault]
      = (h ++ [setKey createDefault k v]) ++ [createDefault] by simp] at e4 ⊢
    rw [e4]
    rfl
  · intro d hd
    fin_cases hd <;> rfl

/-- Claim C1 counterexample: a mapping whose text is the number 5 (truthy,
non-string, non-null) makes renderText reach text.split and throw, and
makes renderSVG reach text.replace and throw. -/
theorem render_throws_on_numeric_text_cx :
    (renderText numericTextProps sampleBounds).threw = true
    ∧ (renderSVG numericTextProps sampleBounds).toOption = none := by
  decide

/-- Claim C1 amended: validate and createDefault are total; renderText and
renderSVG complete without throwing whenever the text property is a string,
null, or undefined (absent); a truthy non-string text makes renderText
throw from text.split, and any non-nullish non-string text makes renderSVG
throw from text.replace. -/
theorem render_no_throw_wellformed_text (p : LayerProperties) (b : LayerBounds)
    (h : isString (getProp p "text") = true ∨ getProp p "text" = vNull
      ∨ getProp p "text" = vUndefined) :
    (renderText p b).threw = false ∧ ∃ out, renderSVG p b = Except.ok out := by
  have hs : ∃ s, resolveProp p "text" (vStr "") = vStr s := by
    rcases h with h | h | h
    · rcases hx : getProp p "text" with _ | _ | bb | nn | ss
      · rw [hx] at h; simp [isString] at h
      · rw [hx] at h; simp [isString] at h
      · rw [hx] at h; simp [isString] at h
      · rw [hx] at h; simp [isString] at h
      · exact ⟨ss, by simp [resolveProp, hx]⟩
    · exact ⟨"", by simp [resolveProp, h]⟩
    · exact ⟨"", by simp [resolveProp, h]⟩
  rcases hs with ⟨s, hs⟩
  constructor
  · by_cases hne : s = ""
    · subst hne
      rw [renderText_of_falsy p b (by simp [hs, truthy])]
    · rw [renderText_of_str p b s hs hne]
  · exact ⟨_, renderSVG_of_str p b s hs⟩

/-- Witness for the no-throw theorem at a concrete well-formed mapping. -/
theorem render_no_throw_wellformed_text_witness :
    (renderText helloProps sampleBounds).threw = false
    ∧ ∃ out, renderSVG helloProps sampleBounds = Except.ok out :=
  render_no_throw_wellformed_text helloProps sampleBounds (Or.inl (by decide))

/-- Claim C2 counterexample: with text "A" present, a fontSize that is
present but holds the string "huge" does not fall back to 48: the render
output differs from the output with fontSize absent (the font string embeds
the raw value and the line y becomes NaN). -/
theorem mistyped_fontSize_not_fallback_cx :
    renderText mistypedFontSizeProps sampleBounds
      ≠ renderText absentFontSizeProps sampleBounds := by
  decide

/-- A binding holding null or undefined resolves like an absent binding. -/
theorem resolveProp_cons_nullish (p : LayerProperties) (k k' : String) (fb v : JSVal)
    (hv : v = vNull ∨ v = vUndefined) (h : getProp p k = vUndefined) :
    resolveProp ((k, v) :: p) k' fb = resolveProp p k' fb := by
  by_cases hk : k = k'
  · subst hk
    rcases hv with hv | hv <;> subst hv <;> simp [resolveProp, getProp, h]
  · simp [resolveProp, getProp, hk]

/-- renderText depends on the properties mapping only through the resolved
values of the keys it reads. -/
theorem renderText_congr (p q : LayerProperties) (b : LayerBounds)
    (h : ∀ k fb, resolveProp p k fb = resolveProp q k fb) :
    renderText p b = renderText q b := by
  simp only [renderText, renderPreEvents, renderLineEvents, h]

/-- Claim C2 amended: a styling key resolves to its documented fallback
exactly when it is absent or holds null or undefined; null and undefined
bindings render exactly like a missing key, while any other mistyped value
is passed through unchanged, so the render output for such a key differs in
general from the missing-key output. -/
theorem renderText_nullish_as_absent (p : LayerProperties) (b : LayerBounds)
    (k : String) (h : getProp p k = vUndefined) :
    renderText ((k, vNull) :: p) b = renderText p b
    ∧ renderText ((k, vUndefined) :: p) b = renderText p b :=
  ⟨renderText_congr _ _ _ (fun k' fb => resolveProp_cons_nullish p k k' fb vNull (Or.inl rfl) h),
   renderText_congr _ _ _ (fun k' fb => resolveProp_cons_nullish p k k' fb vUndefined (Or.inr rfl) h)⟩

/-- Witness: a null or undefined fontSize renders exactly like an absent one. -/
theorem renderText_nullish_as_absent_witness :
    renderText (("fontSize", vNull) :: absentFontSizeProps) sampleBounds
      = renderText absentFontSizeProps sampleBounds
    ∧ renderText (("fontSize", vUndefined) :: absentFontSizeProps) sampleBounds
      = renderText absentFontSizeProps sampleBounds :=
  renderText_nullish_as_absent absentFontSizeProps sampleBounds "fontSize" (by decide)

/-- Claim C3 counterexample: with text the number 5, renderText issues a
save (the paint-state acquisition) and then throws, so no matching restore
is issued on that exit path. -/
theorem save_without_restore_cx :
    (renderText numericTextProps sampleBounds).events.countP isSaveEv = 1
    ∧ (renderText numericTextProps sampleBounds).events.countP isRestoreEv = 0 := by
  decide

/-- Claim C3 amended: when the resolved text is falsy (in particular the
empty string) renderText performs no paint-state acquisition and issues no
events at all; when the resolved text is a truthy string, exactly one save
is matched by exactly one restore; but when the resolved text is truthy and
not a string, one save is issued and the TypeError escapes with no restore. -/
theorem renderText_paint_scope (p : LayerProperties) (b : LayerBounds) :
    (truthy (resolveProp p "text" (vStr "")) = false →
      (renderText p b).events = [] ∧ (renderText p b).threw = false)
    ∧ (∀ s, resolveProp p "text" (vStr "") = vStr s → s ≠ "" →
      (renderText p b).events.countP isSaveEv = 1
      ∧ (renderText p b).events.countP isRestoreEv = 1
      ∧ (renderText p b).threw = false)
    ∧ (truthy (resolveProp p "text" (vStr "")) = true →
      isString (resolveProp p "text" (vStr "")) = false →
      (renderText p b).events.countP isSaveEv = 1
      ∧ (renderText p b).events.countP isRestoreEv = 0
      ∧ (renderText p b).threw = true) := by
  refine ⟨fun hf => ?_, fun s hs hne => ?_, fun ht hns => ?_⟩
  · rw [renderText_of_falsy p b hf]; exact ⟨rfl, rfl⟩
  · rw [renderText_of_str p b s hs hne]
    refine ⟨?_, ?_, rfl⟩ <;>
      simp [List.countP_append, renderPreEvents_save_count,
        renderPreEvents_restore_count, renderLineEvents_eq, countP_flatMapL,
        lineDrawEvents_save_count, lineDrawEvents_restore_count,
        List.countP_cons, isSaveEv, isRestoreEv]
  · rw [renderText_of_nonstr p b ht hns]
    exact ⟨renderPreEvents_save_count p, renderPreEvents_restore_count p, rfl⟩

/-- Witness for the paint-scope theorem: one save and one restore on a
plain string render, and no events at all on empty text. -/
theorem renderText_paint_scope_witness :
    ((renderText helloProps sampleBounds).events.countP isSaveEv = 1
      ∧ (renderText helloProps sampleBounds).events.countP isRestoreEv = 1
      ∧ (renderText helloProps sampleBounds).threw = false)
    ∧ ((renderText [("text", vStr "")] sampleBounds).events = []
      ∧ (renderText [("text", vStr "")] sampleBounds).threw = false) :=
  ⟨(renderText_paint_scope helloProps sampleBounds).2.1 "Hello World" rfl (by decide),
   (renderText_paint_scope [("text", vStr "")] sampleBounds).1 (by decide)⟩

/-- Events of a truthy-string render, as a plain list equation. -/
theorem renderText_events_of_str (p : LayerProperties) (b : LayerBounds) (s : String)
    (hs : resolveProp p "text" (vStr "") = vStr s) (hne : s ≠ "") :
    (renderText p b).events
      = renderPreEvents p ++ renderLineEvents p b s ++ [CtxEvent.restore] := by
  rw [renderText_of_str p b s hs hne]

/-- Claim C5: for a resolved non-empty string text and numeric fontSize and
lineHeight, renderText splits the text on line feeds (no re-wrapping) and
issues exactly one fill per line, line i at y = bounds.y + i * (fontSize *
lineHeight), in order. -/
theorem renderText_multiline_layout (p : LayerProperties) (b : LayerBounds)
    (s : String) (fs lh : ℚ)
    (hs : resolveProp p "text" (vStr "") = vStr s) (hne : s ≠ "")
    (hfs : resolveProp p "fontSize" (vNum (some 48)) = vNum (some fs))
    (hlh : resolveProp p "lineHeight" (vNum (some 1.2)) = vNum (some lh)) :
    (renderText p b).events.filter isFillEv =
      (List.range (jsSplitNewline s).length).map (fun i =>
        CtxEvent.fillText ((jsSplitNewline s).getD i "")
          (textAnchorX (resolveProp p "align" (vStr "left")) b)
          (some (b.y + (i : ℚ) * (fs * lh)))) := by
  rw [renderText_events_of_str p b s hs hne, List.filter_append, List.filter_append,
    renderPreEvents_no_fill, renderLineEvents_eq, filter_flatMapL]
  simp only [lineDrawEvents_filter_fill, hfs, hlh, toNumber, nMul, nAdd]
  rw [flatMap_singletonL]
  simp [isFillEv]

/-- Witness: three lines with fontSize 24 and lineHeight 1.5 fill exactly
lines 0, 1, 2 at y-offsets 0, 36 and 72 from bounds.y, at the left anchor. -/
theorem renderText_multiline_layout_witness :
    ((renderText threeLineProps sampleBounds).events.filter isFillEv =
      (List.range (jsSplitNewline "a\nb\nc").length).map (fun i =>
        CtxEvent.fillText ((jsSplitNewline "a\nb\nc").getD i "")
          (textAnchorX (resolveProp threeLineProps "align" (vStr "left")) sampleBounds)
          (some (sampleBounds.y + (i : ℚ) * (24 * 1.5)))))
    ∧ (jsSplitNewline "a\nb\nc").length = 3
    ∧ sampleBounds.y + (0 : ℚ) * (24 * 1.5) = sampleBounds.y + 0
    ∧ sampleBounds.y + (1 : ℚ) * (24 * 1.5) = sampleBounds.y + 36
    ∧ sampleBounds.y + (2 : ℚ) * (24 * 1.5) = sampleBounds.y + 72
    ∧ textAnchorX (resolveProp threeLineProps "align" (vStr "left")) sampleBounds = 10 :=
  ⟨renderText_multiline_layout threeLineProps sampleBounds "a\nb\nc" 24 1.5
      rfl (by decide) rfl rfl,
   by decide, by norm_num, by norm_num, by norm_num,
   by simp [textAnchorX, sampleBounds,
     show resolveProp threeLineProps "align" (vStr "left") = vStr "left" from rfl]⟩

/-- Claim C8: for a resolved non-empty string text, the draw calls of
renderText are, per line and in order, an optional stroke followed by the
fill at the same coordinates; the stroke is present exactly when
strokeEnabled is truthy and strokeWidth compares greater than zero, no
stroke call is issued otherwise, and one fill is issued for every line. -/
theorem renderText_stroke_before_fill (p : LayerProperties) (b : LayerBounds)
    (s : String)
    (hs : resolveProp p "text" (vStr "") = vStr s) (hne : s ≠ "") :
    ((renderText p b).events.filter isDrawEv =
      (List.range (jsSplitNewline s).length).flatMap (fun i =>
        (if truthy (resolveProp p "strokeEnabled" (vBool false))
            && jsGT (resolveProp p "strokeWidth" (vNum (some 2))) 0 then
          [CtxEvent.strokeText ((jsSplitNewline s).getD i "")
            (textAnchorX (resolveProp p "align" (vStr "left")) b)
            (nAdd (some b.y) (nMul (some (i : ℚ))
              (nMul (toNumber (resolveProp p "fontSize" (vNum (some 48))))
                (toNumber (resolveProp p "lineHeight" (vNum (some 1.2)))))))]
        else [])
        ++ [CtxEvent.fillText ((jsSplitNewline s).getD i "")
            (textAnchorX (resolveProp p "align" (vStr "left")) b)
            (nAdd (some b.y) (nMul (some (i : ℚ))
              (nMul (toNumber (resolveProp p "fontSize" (vNum (some 48))))
                (toNumber (resolveProp p "lineHeight" (vNum (some 1.2)))))))]))
    ∧ ((truthy (resolveProp p "strokeEnabled" (vBool false)) = false
        ∨ jsGT (resolveProp p "strokeWidth" (vNum (some 2))) 0 = false) →
      (renderText p b).events.filter isStrokeEv = [])
    ∧ (renderText p b).events.countP isFillEv = (jsSplitNewline s).length := by
  refine ⟨?_, fun hdis => ?_, ?_⟩
  · rw [renderText_events_of_str p b s hs hne, List.filter_append, List.filter_append,
      renderPreEvents_no_draw, renderLineEvents_eq, filter_flatMapL]
    simp only [lineDrawEvents_filter_draw]
    simp [isDrawEv]
  · have hoff : (truthy (resolveProp p "strokeEnabled" (vBool false))
        && jsGT (resolveProp p "strokeWidth" (vNum (some 2))) 0) = false := by
      rcases hdis with h | h <;> simp [h]
    rw [renderText_events_of_str p b s hs hne, List.filter_append, List.filter_append,
      renderPreEvents_no_stroke, renderLineEvents_eq, filter_flatMapL]
    simp [lineDrawEvents_filter_stroke, hoff, isStrokeEv]
  · rw [renderText_events_of_str p b s hs hne, List.countP_append, List.countP_append,
      renderLineEvents_eq, countP_flatMapL]
    have h1 : (renderPreEvents p).countP isFillEv = 0 := by
      rw [List.countP_eq_length_filter, renderPreEvents_no_fill]
      rfl
    have h2 : ∀ so sc sw c line x y,
        (lineDrawEvents so sc sw c line x y).countP isFillEv = 1 := by
      intro so sc sw c line x y
      rw [List.countP_eq_length_filter, lineDrawEvents_filter_fill]
      rfl
    simp [h1, h2, isFillEv, List.countP_cons, List.map_const', List.sum_replicate]

/-- Witness: two lines with stroke enabled and width 3 produce, per line, a
stroke then a fill at the same coordinates, and the stroke condition is on. -/
theorem renderText_stroke_before_fill_witness :
    ((renderText strokedProps sampleBounds).events.filter isDrawEv =
      (List.range (jsSplitNewline "one\ntwo").length).flatMap (fun i =>
        (if truthy (resolveProp strokedProps "strokeEnabled" (vBool false))
            && jsGT (resolveProp strokedProps "strokeWidth" (vNum (some 2))) 0 then
          [CtxEvent.strokeText ((jsSplitNewline "one\ntwo").getD i "")
            (textAnchorX (resolveProp strokedProps "align" (vStr "left")) sampleBounds)
            (nAdd (some sampleBounds.y) (nMul (some (i : ℚ))
              (nMul (toNumber (resolveProp strokedProps "fontSize" (vNum (some 48))))
                (toNumber (resolveProp strokedProps "lineHeight" (vNum (some 1.2)))))))]
        else [])
        ++ [CtxEvent.fillText ((jsSplitNewline "one\ntwo").getD i "")
            (textAnchorX (resolveProp strokedProps "align" (vStr "left")) sampleBounds)
            (nAdd (some sampleBounds.y) (nMul (some (i : ℚ))
              (nMul (toNumber (resolveProp strokedProps "fontSize" (vNum (some 48))))
                (toNumber (resolveProp strokedProps "lineHeight" (vNum (some 1.2)))))))]))
    ∧ (renderText strokedProps sampleBounds).events.countP isFillEv
        = (jsSplitNewline "one\ntwo").length
    ∧ (truthy (resolveProp strokedProps "strokeEnabled" (vBool false))
        && jsGT (resolveProp strokedProps "strokeWidth" (vNum (some 2))) 0) = true :=
  ⟨(renderText_stroke_before_fill strokedProps sampleBounds "one\ntwo" rfl (by decide)).1,
   (renderText_stroke_before_fill strokedProps sampleBounds "one\ntwo" rfl (by decide)).2.2,
   by decide⟩

/-- Claim C6: the anchor x used by every draw call of renderText equals the
x attribute emitted by renderSVG, computed as bounds.x + width/2 for
center, bounds.x + width for right, and bounds.x for left and for any
other align value; renderSVG maps center to the middle anchor keyword and
right to end, with start otherwise. -/
theorem anchor_x_consistency (p : LayerProperties) (b : LayerBounds) :
    textAnchorX (resolveProp p "align" (vStr "left")) b
      = svgAnchorX (resolveProp p "align" (vStr "left")) b
    ∧ (resolveProp p "align" (vStr "left") = vStr "center" →
        svgAnchorX (resolveProp p "align" (vStr "left")) b = b.x + b.width / 2
        ∧ svgTextAnchor (resolveProp p "align" (vStr "left")) = "middle")
    ∧ (resolveProp p "align" (vStr "left") = vStr "right" →
        svgAnchorX (resolveProp p "align" (vStr "left")) b = b.x + b.width
        ∧ svgTextAnchor (resolveProp p "align" (vStr "left")) = "end")
    ∧ (resolveProp p "align" (vStr "left") ≠ vStr "center" →
        resolveProp p "align" (vStr "left") ≠ vStr "right" →
        svgAnchorX (resolveProp p "align" (vStr "left")) b = b.x
        ∧ svgTextAnchor (resolveProp p "align" (vStr "left")) = "start")
    ∧ (∀ e ∈ (renderText p b).events, isDrawEv e = true →
        drawX e = some (svgAnchorX (resolveProp p "align" (vStr "left")) b))
    ∧ (∀ out, renderSVG p b = Except.ok out → ∃ rest,
        out = "<text x=\""
          ++ numToString (svgAnchorX (resolveProp p "align" (vStr "left")) b)
          ++ "\" " ++ rest) := by
  have hanchor : textAnchorX (resolveProp p "align" (vStr "left")) b
      = svgAnchorX (resolveProp p "align" (vStr "left")) b := rfl
  refine ⟨hanchor, fun h => ⟨by simp [svgAnchorX, h], by simp [svgTextAnchor, h]⟩,
    fun h => ⟨by simp [svgAnchorX, h], by simp [svgTextAnchor, h]⟩,
    fun h1 h2 => ⟨by simp [svgAnchorX, h1, h2], by simp [svgTextAnchor, h1, h2]⟩,
    ?_, ?_⟩
  · intro e he hd
    rw [← hanchor]
    by_cases hf : truthy (resolveProp p "text" (vStr "")) = false
    · rw [renderText_of_falsy p b hf] at he
      simp at he
    · have ht : truthy (resolveProp p "text" (vStr "")) = true := by
        rcases hbv : truthy (resolveProp p "text" (vStr "")) with _ | _
        · exact absurd hbv hf
        · rfl
      by_cases hstr : isString (resolveProp p "text" (vStr "")) = false
      · rw [renderText_of_nonstr p b ht hstr] at he
        have hnil := renderPreEvents_no_draw p
        rw [List.filter_eq_nil_iff] at hnil
        exact absurd hd (by simpa using hnil e he)
      · rcases hx : resolveProp p "text" (vStr "") with _ | _ | bb | nn | ss
        · rw [hx] at hstr; simp [isString] at hstr
        · rw [hx] at hstr; simp [isString] at hstr
        · rw [hx] at hstr; simp [isString] at hstr
        · rw [hx] at hstr; simp [isString] at hstr
        · have hne : ss ≠ "" := by
            rw [hx] at ht
            simpa [truthy] using ht
          rw [renderText_events_of_str p b ss hx hne] at he
          rcases List.mem_append.mp he with he1 | he2
          · rcases List.mem_append.mp he1 with hp | hl
            · have hnil := renderPreEvents_no_draw p
              rw [List.filter_eq_nil_iff] at hnil
              exact absurd hd (by simpa using hnil e hp)
            · rw [renderLineEvents_eq] at hl
              rcases List.mem_flatMap.mp hl with ⟨i, hi, hmem⟩
              rcases hcond : (truthy (resolveProp p "strokeEnabled" (vBool false))
                  && jsGT (resolveProp p "strokeWidth" (vNum (some 2))) 0) with _ | _
              · rw [hcond] at hmem
                simp [lineDrawEvents] at hmem
                rcases hmem with h | h <;> subst h
                · simp [isDrawEv] at hd
                · simp [drawX]
              · rw [hcond] at hmem
                simp [lineDrawEvents] at hmem
                rcases hmem with h | h | h | h | h | h <;> subst h
                · simp [isDrawEv] at hd
                · simp [isDrawEv] at hd
                · simp [isDrawEv] at hd
                · simp [drawX]
                · simp [isDrawEv] at hd
                · simp [drawX]
          · simp at he2
            subst he2
            simp [isDrawEv] at hd
  · intro out hout
    by_cases hstr : isString (resolveProp p "text" (vStr "")) = false
    · rw [renderSVG_of_nonstr p b hstr] at hout
      exact absurd hout (by simp)
    · rcases hx : resolveProp p "text" (vStr "") with _ | _ | bb | nn | ss
      · rw [hx] at hstr; simp [isString] at hstr
      · rw [hx] at hstr; simp [isString] at hstr
      · rw [hx] at hstr; simp [isString] at hstr
      · rw [hx] at hstr; simp [isString] at hstr
      · rw [renderSVG_of_str p b ss hx] at hout
        injection hout with hinj
        refine ⟨"y=\""
          ++ jsToString (jsPlus (vNum (some b.y)) (resolveProp p "fontSize" (vNum (some 48))))
          ++ "\" " ++ "font-family=\"" ++ jsToString (resolveProp p "fontFamily" (vStr "Inter"))
          ++ "\" " ++ "font-size=\"" ++ jsToString (resolveProp p "fontSize" (vNum (some 48)))
          ++ "\" " ++ "font-weight=\"" ++ jsToString (resolveProp p "fontWeight" (vStr "400"))
          ++ "\" " ++ "font-style=\"" ++ jsToString (resolveProp p "fontStyle" (vStr "normal"))
          ++ "\" " ++ "fill=\"" ++ jsToString (resolveProp p "color" (vStr "#ffffff"))
          ++ "\" " ++ "text-anchor=\"" ++ svgTextAnchor (resolveProp p "align" (vStr "left"))
          ++ "\">" ++ svgEscape ss ++ "</text>", ?_⟩
        rw [← hinj]
        simp only [String.append_assoc]

/-- Witness for the anchor consistency: center yields the midpoint and the
middle keyword, right the right edge and end, default left the left edge
and start; the fill call of a plain render carries the shared anchor x; and
the emitted element starts with that x attribute. -/
theorem anchor_x_consistency_witness :
    (svgAnchorX (resolveProp [("align", vStr "center")] "align" (vStr "left")) sampleBounds
        = sampleBounds.x + sampleBounds.width / 2
      ∧ svgTextAnchor (resolveProp [("align", vStr "center")] "align" (vStr "left")) = "middle")
    ∧ (svgAnchorX (resolveProp [("align", vStr "right")] "align" (vStr "left")) sampleBounds
        = sampleBounds.x + sampleBounds.width
      ∧ svgTextAnchor (resolveProp [("align", vStr "right")] "align" (vStr "left")) = "end")
    ∧ (svgAnchorX (resolveProp helloProps "align" (vStr "left")) sampleBounds = sampleBounds.x
      ∧ svgTextAnchor (resolveProp helloProps "align" (vStr "left")) = "start")
    ∧ drawX (CtxEvent.fillText "Hello World"
        (textAnchorX (resolveProp helloProps "align" (vStr "left")) sampleBounds)
        (nAdd (some sampleBounds.y) (nMul (some (0 : ℚ))
          (nMul (toNumber (resolveProp helloProps "fontSize" (vNum (some 48))))
            (toNumber (resolveProp helloProps "lineHeight" (vNum (some 1.2))))))))
      = some (svgAnchorX (resolveProp helloProps "align" (vStr "left")) sampleBounds)
    ∧ (∃ out rest, renderSVG helloProps sampleBounds = Except.ok out
        ∧ out = "<text x=\""
          ++ numToString (svgAnchorX (resolveProp helloProps "align" (vStr "left")) sampleBounds)
          ++ "\" " ++ rest) := by
  refine ⟨(anchor_x_consistency [("align", vStr "center")] sampleBounds).2.1 rfl,
    (anchor_x_consistency [("align", vStr "right")] sampleBounds).2.2.1 rfl,
    (anchor_x_consistency helloProps sampleBounds).2.2.2.1 (by decide) (by decide),
    ?_, ?_⟩
  · apply (anchor_x_consistency helloProps sampleBounds).2.2.2.2.1
    · rw [renderText_events_of_str helloProps sampleBounds "Hello World" rfl (by decide)]
      apply List.mem_append_left
      apply List.mem_append_right
      rw [renderLineEvents_eq]
      rw [show (truthy (resolveProp helloProps "strokeEnabled" (vBool false))
        && jsGT (resolveProp helloProps "strokeWidth" (vNum (some 2))) 0) = false from by decide]
      apply List.mem_flatMap.mpr
      refine ⟨0, by decide, ?_⟩
      simp [lineDrawEvents]
      decide
    · rfl
  · obtain ⟨rest, hr⟩ := (anchor_x_consistency helloProps sampleBounds).2.2.2.2.2 _
      (renderSVG_of_str helloProps sampleBounds "Hello World" rfl)
    exact ⟨_, rest, renderSVG_of_str helloProps sampleBounds "Hello World" rfl, hr⟩

/-- Claim C10: renderSVG interpolates the resolved fontFamily, fontWeight,
fontStyle and color values verbatim into the double-quoted attribute
positions of the emitted element, with no escaping applied to attribute
values (only element content is escaped). -/
theorem renderSVG_attrs_verbatim (p : LayerProperties) (b : LayerBounds) (s : String)
    (hs : resolveProp p "text" (vStr "") = vStr s) :
    ∃ out, renderSVG p b = Except.ok out
    ∧ (∃ pre post, out = pre ++ ("font-family=\""
        ++ jsToString (resolveProp p "fontFamily" (vStr "Inter")) ++ "\" ") ++ post)
    ∧ (∃ pre post, out = pre ++ ("font-weight=\""
        ++ jsToString (resolveProp p "fontWeight" (vStr "400")) ++ "\" ") ++ post)
    ∧ (∃ pre post, out = pre ++ ("font-style=\""
        ++ jsToString (resolveProp p "fontStyle" (vStr "normal")) ++ "\" ") ++ post)
    ∧ (∃ pre post, out = pre ++ ("fill=\""
        ++ jsToString (resolveProp p "color" (vStr "#ffffff")) ++ "\" ") ++ post) := by
  refine ⟨_, renderSVG_of_str p b s hs, ?_, ?_, ?_, ?_⟩
  · refine ⟨"<text x=\"" ++ numToString (svgAnchorX (resolveProp p "align" (vStr "left")) b)
      ++ "\" " ++ "y=\""
      ++ jsToString (jsPlus (vNum (some b.y)) (resolveProp p "fontSize" (vNum (some 48))))
      ++ "\" ",
      "font-size=\"" ++ jsToString (resolveProp p "fontSize" (vNum (some 48)))
      ++ "\" " ++ "font-weight=\"" ++ jsToString (resolveProp p "fontWeight" (vStr "400"))
      ++ "\" " ++ "font-style=\"" ++ jsToString (resolveProp p "fontStyle" (vStr "normal"))
      ++ "\" " ++ "fill=\"" ++ jsToString (resolveProp p "color" (vStr "#ffffff"))
      ++ "\" " ++ "text-anchor=\"" ++ svgTextAnchor (resolveProp p "align" (vStr "left"))
      ++ "\">" ++ svgEscape s ++ "</text>", ?_⟩
    simp only [String.append_assoc]
  · refine ⟨"<text x=\"" ++ numToString (svgAnchorX (resolveProp p "align" (vStr "left")) b)
      ++ "\" " ++ "y=\""
      ++ jsToString (jsPlus (vNum (some b.y)) (resolveProp p "fontSize" (vNum (some 48))))
      ++ "\" " ++ "font-family=\"" ++ jsToString (resolveProp p "fontFamily" (vStr "Inter"))
      ++ "\" " ++ "font-size=\"" ++ jsToString (resolveProp p "fontSize" (vNum (some 48)))
      ++ "\" ",
      "font-style=\"" ++ jsToString (resolveProp p "fontStyle" (vStr "normal"))
      ++ "\" " ++ "fill=\"" ++ jsToString (resolveProp p "color" (vStr "#ffffff"))
      ++ "\" " ++ "text-anchor=\"" ++ svgTextAnchor (resolveProp p "align" (vStr "left"))
      ++ "\">" ++ svgEscape s ++ "</text>", ?_⟩
    simp only [String.append_assoc]
  · refine ⟨"<text x=\"" ++ numToString (svgAnchorX (resolveProp p "align" (vStr "left")) b)
      ++ "\" " ++ "y=\""
      ++ jsToString (jsPlus (vNum (some b.y)) (resolveProp p "fontSize" (vNum (some 48))))
      ++ "\" " ++ "font-family=\"" ++ jsToString (resolveProp p "fontFamily" (vStr "Inter"))
      ++ "\" " ++ "font-size=\"" ++ jsToString (resolveProp p "fontSize" (vNum (some 48)))
      ++ "\" " ++ "font-weight=\"" ++ jsToString (resolveProp p "fontWeight" (vStr "400"))
      ++ "\" ",
      "fill=\"" ++ jsToString (resolveProp p "color" (vStr "#ffffff"))
      ++ "\" " ++ "text-anchor=\"" ++ svgTextAnchor (resolveProp p "align" (vStr "left"))
      ++ "\">" ++ svgEscape s ++ "</text>", ?_⟩
    simp only [String.append_assoc]
  · refine ⟨"<text x=\"" ++ numToString (svgAnchorX (resolveProp p "align" (vStr "left")) b)
      ++ "\" " ++ "y=\""
      ++ jsToString (jsPlus (vNum (some b.y)) (resolveProp p "fontSize" (vNum (some 48))))
      ++ "\" " ++ "font-family=\"" ++ jsToString (resolveProp p "fontFamily" (vStr "Inter"))
      ++ "\" " ++ "font-size=\"" ++ jsToString (resolveProp p "fontSize" (vNum (some 48)))
      ++ "\" " ++ "font-weight=\"" ++ jsToString (resolveProp p "fontWeight" (vStr "400"))
      ++ "\" " ++ "font-style=\"" ++ jsToString (resolveProp p "fontStyle" (vStr "normal"))
      ++ "\" ",
      "text-anchor=\"" ++ svgTextAnchor (resolveProp p "align" (vStr "left"))
      ++ "\">" ++ svgEscape s ++ "</text>", ?_⟩
    simp only [String.append_assoc]

/-- Witness: for a color value containing a double quote, the fill
attribute carries the quote verbatim, unescaped. -/
theorem renderSVG_attrs_verbatim_witness :
    (∃ out, renderSVG quotedColorProps sampleBounds = Except.ok out
      ∧ ∃ pre post, out = pre ++ ("fill=\""
          ++ jsToString (resolveProp quotedColorProps "color" (vStr "#ffffff")) ++ "\" ") ++ post)
    ∧ jsToString (resolveProp quotedColorProps "color" (vStr "#ffffff")) = "a\"b" := by
  obtain ⟨out, hout, h1, h2, h3, h4⟩ :=
    renderSVG_attrs_verbatim quotedColorProps sampleBounds "X" rfl
  exact ⟨⟨out, hout, h4⟩, by decide⟩

/-- Witness for the createDefault contract: two allocations from the empty
heap are distinct, and the text descriptor's default is present. -/
theorem createDefault_contract_witness :
    ((createDefaultAlloc ([] : Heap)).1 ≠ (createDefaultAlloc (createDefaultAlloc ([] : Heap)).2).1)
    ∧ getProp createDefault "text" = vStr "Hello World" :=
  ⟨(createDefault_contract [] "text" (vStr "x")).1,
   (createDefault_contract [] "text" (vStr "x")).2.2.2.2.2
     { key := "text", label := "Text", type := PropType.string,
       default := vStr "Hello World", group := "content" } (by decide)⟩
